import Mathlib

/-!
Shallow embedding of the edge icon-resizing worker (src/lib.rs) and proofs
about it.  Pure Rust functions become Lean functions; the asynchronous
request handler becomes a pure function over an explicit `World` of
external outcomes (cache lookup result, environment variable, network
fetch result, decode oracle, cache store success), returning the response
together with a record of the observable effects.
-/

/-- The `Icon` struct of src/lib.rs: requested width and height (Rust u32,
modelled as Nat; every value the parser can produce is < 2^32). -/
structure Icon where
  width : Nat
  height : Nat
deriving DecidableEq

/-- Error kinds produced by Icon::validate, one per message string of the
source code. -/
inductive ValidateError where
  | invalidWidth
  | invalidHeight
  | invalidSize
deriving DecidableEq

/-- The message carried by each validation error, exactly as in
Error::from("...") of the source. -/
def ValidateError.message : ValidateError → String
  | .invalidWidth => "invalid width"
  | .invalidHeight => "invalid height"
  | .invalidSize => "invalid size"

/-- Icon::validate of src/lib.rs, lines 14-26: width range check, then
height range check, then squareness check; the first failure wins. -/
def Icon.validate (i : Icon) : Except ValidateError Unit :=
  if i.width < 1 ∨ i.width > 500 then .error .invalidWidth
  else if i.height < 1 ∨ i.height > 500 then .error .invalidHeight
  else if i.width ≠ i.height then .error .invalidSize
  else .ok ()

/-- Strip a literal prefix from a character list; some rest on success.
Embeds the literal-prefix steps of the regex
`^apple-touch-icon(-(\d+)x(\d+))?(-precomposed)?\.png` of line 77. -/
def stripPrefixL : List Char → List Char → Option (List Char)
  | [], rest => some rest
  | _ :: _, [] => none
  | p :: ps, c :: cs => if p = c then stripPrefixL ps cs else none

/-- The optional size group `(-(\d+)x(\d+))?` of the regex: on success
returns the two captured digit strings and the rest of the input; when the
group cannot match, consumes nothing (the group is optional).  `\d` is
modelled as an ASCII digit (the haystacks of interest are ASCII; the Rust
regex also accepts non-ASCII Unicode decimal digits, which the integer
parser then rejects).  Greedy matching without backtracking is equivalent
to the regex here: a shorter width capture is followed by a digit where
`x` is required, a shorter height capture is followed by a digit where
`-precomposed` or `.png` is required, and skipping a matchable group
requires the next character to be both `-`-digit and `.` or `-p`,
impossible. -/
def matchSizeGroup (cs : List Char) : Option (List Char × List Char) × List Char :=
  match cs with
  | [] => (none, cs)
  | c :: rest =>
    if c = '-' then
      let w := rest.takeWhile Char.isDigit
      let rest1 := rest.dropWhile Char.isDigit
      if w = [] then (none, cs)
      else
        match rest1 with
        | [] => (none, cs)
        | c1 :: rest2 =>
          if c1 = 'x' then
            let h := rest2.takeWhile Char.isDigit
            let rest3 := rest2.dropWhile Char.isDigit
            if h = [] then (none, cs) else ((some (w, h), rest3))
          else (none, cs)
    else (none, cs)

/-- The optional literal group `(-precomposed)?` of the regex: consume the
literal when present, otherwise consume nothing. -/
def matchPrecomposed (cs : List Char) : List Char :=
  match stripPrefixL "-precomposed".data cs with
  | some rest => rest
  | none => cs

/-- Matching of the full regex `^apple-touch-icon(-(\d+)x(\d+))?(-precomposed)?\.png`
against the start of the path (the pattern is anchored at the start only:
anything may follow `.png`).  Returns none when the pattern does not
match, some none when it matches with the size group absent, and
some (some (w, h)) with the captured digit strings otherwise. -/
def matchIconPath (path : String) : Option (Option (List Char × List Char)) :=
  match stripPrefixL "apple-touch-icon".data path.data with
  | none => none
  | some rest =>
    match matchSizeGroup rest with
    | (size, rest1) =>
      let rest2 := matchPrecomposed rest1
      if (stripPrefixL ".png".data rest2).isSome then some size else none

/-- Numeric value of a digit string, most significant digit first. -/
def digitsToNat (cs : List Char) : Nat :=
  cs.foldl (fun acc c => acc * 10 + (c.toNat - 48)) 0

/-- Rust `str::parse::<u32>()` on the captured strings: succeeds exactly on
nonempty ASCII-digit strings whose value fits in u32 (checked accumulation
never overflows before the final value does, so the final-value check is
equivalent). -/
def parseU32 (cs : List Char) : Option Nat :=
  if cs ≠ [] ∧ cs.all Char.isDigit ∧ digitsToNat cs < 2 ^ 32 then
    some (digitsToNat cs)
  else none

/-- Outcome of parse_icon_path: Ok(icon), the
Err(format!("Unmached path: {}", path)) branch, or the panic of
`.parse().unwrap()` when a captured digit string does not fit in u32. -/
inductive ParseResult where
  | ok (icon : Icon)
  | unmatchedPath (path : String)
  | panicked
deriving DecidableEq

/-- parse_icon_path of src/lib.rs, lines 76-85: regex match, default "60"
for absent captures, then `.parse().unwrap()` on each capture (a failed
parse is a panic, not an error). -/
def parse_icon_path (path : String) : ParseResult :=
  match matchIconPath path with
  | none => .unmatchedPath path
  | some size =>
    let ws := match size with | none => "60".data | some (w, _) => w
    let hs := match size with | none => "60".data | some (_, h) => h
    match parseU32 ws, parseU32 hs with
    | some w, some h => .ok ⟨w, h⟩
    | _, _ => .panicked

/-- A decoded raster image, abstracted to its pixel dimensions (all that
the claims about resizing observe). -/
structure SourceImage where
  width : Nat
  height : Nat
deriving DecidableEq

/-- The u32::MAX bound used by the image crate's dimension clamp. -/
def u32Max : Nat := 4294967295

/-- Round a / b to the nearest natural number, halves up: floor(a/b + 1/2)
computed as (2a + b) / (2b) in natural division (b > 0 at every use:
decoded images have positive dimensions). -/
def roundNatDiv (a b : Nat) : Nat := (2 * a + b) / (2 * b)

/-- The dimension computation of DynamicImage::resize (image crate
resize_dimensions with fill = false): ratio = min(nwidth/width,
nheight/height), output = (round(width * ratio), round(height * ratio)),
each clamped to at least 1 and at most u32::MAX.  Evaluated in exact
arithmetic: the smaller ratio is selected by cross-multiplication, and
multiplying a dimension by its own ratio yields the target exactly, so
only the other dimension needs a rounded division.  The crate computes in
f64 with round-half-away-from-zero; on the nonnegative values involved
the two rounding modes agree, and for the concrete dimensions used in the
theorems below every intermediate f64 value is exact. -/
def resize_dimensions (width height nwidth nheight : Nat) : Nat × Nat :=
  let p :=
    if nwidth * height ≤ nheight * width then
      (nwidth, roundNatDiv (height * nwidth) width)
    else
      (roundNatDiv (width * nheight) height, nheight)
  let nw := max p.1 1
  let nh := max p.2 1
  if nw > u32Max then (u32Max, max (roundNatDiv (height * u32Max) width) 1)
  else if nh > u32Max then (max (roundNatDiv (width * u32Max) height) 1, u32Max)
  else (nw, nh)

/-- generate_icon of src/lib.rs, lines 115-121: DynamicImage::resize with
the Triangle filter; the filter does not affect output dimensions. -/
def generate_icon (icon : Icon) (source : SourceImage) : SourceImage :=
  let p := resize_dimensions source.width source.height icon.width icon.height
  ⟨p.1, p.2⟩

/-- Body of an HTTP response: an error text, or the PNG encoding of an
image (PNG encoding and decoding preserve pixel dimensions, so the body
is abstracted to the image it encodes). -/
inductive ResponseBody where
  | text (s : String)
  | png (img : SourceImage)
deriving DecidableEq

/-- A worker Response, abstracted to status, body and the two headers this
program ever sets. -/
structure HttpResponse where
  status : Nat
  body : ResponseBody
  contentType : Option String := none
  cacheControl : Option String := none
deriving DecidableEq

/-- make_response of src/lib.rs, lines 123-132: PNG-encode the image into
the body of a fresh 200 response and set content-type: image/png.
Encoding of a freshly rendered in-memory image is modelled as always
succeeding (the spec calls its failure an unexpected condition; no claim
depends on it). -/
def make_response (icon_img : SourceImage) : HttpResponse :=
  { status := 200, body := .png icon_img, contentType := some "image/png" }

/-- The image formats the worker recognises. -/
inductive ImageFormat where
  | jpeg
  | png
  | gif
deriving DecidableEq

/-- detect_image_format of src/lib.rs, lines 104-113: exact string match
on the content-type value; anything else is an error carrying the value. -/
def detect_image_format (content_type : String) : Except String ImageFormat :=
  if content_type = "image/jpeg" then .ok .jpeg
  else if content_type = "image/png" then .ok .png
  else if content_type = "image/gif" then .ok .gif
  else .error ("Unknown source image format: " ++ content_type)

/-- The outcome of the outbound GET: body bytes and the optional
content-type header. -/
structure FetchResponse where
  body : List Nat
  contentType : Option String

/-- fetch_source_image of src/lib.rs, lines 87-102, after the network
transfer (network failure is a World outcome at the handler level): read
the content-type header, fail when it is absent, map it to a format, then
decode the bytes with the image crate (the codec is the abstract `decode`
argument, as the crate is outside the repository). -/
def fetch_source_image (decode : ImageFormat → List Nat → Except String SourceImage)
    (res : FetchResponse) : Except String SourceImage :=
  match res.contentType with
  | some t =>
    match detect_image_format t with
    | .error e => .error e
    | .ok fmt =>
      match decode fmt res.body with
      | .error e => .error e
      | .ok img => .ok img
  | none => .error "Could not get content-type response header"

/-- req.path().trim_start_matches("/") of line 46: drop every leading
slash. -/
def trim_start_slashes (path : String) : String :=
  String.mk (path.data.dropWhile (fun c => c = '/'))

/-- Outcomes of the external collaborators consumed by one request, fixed
before the handler runs: the cache lookup (none: the lookup itself
errored; some none: miss; some (some r): non-expired hit r), the
SOURCE_IMAGE_URL variable, the outbound fetch (none: network failure),
the decode oracle, and whether cache.put succeeds. -/
structure World where
  cacheGet : Option (Option HttpResponse)
  envVar : Option String
  fetchResult : Option FetchResponse
  decode : ImageFormat → List Nat → Except String SourceImage
  putOk : Bool

/-- Result of main: a response (Response::error also lands here, as in the
source), a propagated Err (surfaced by the runtime as a generic error
response), or a panic. -/
inductive HandlerResult where
  | resp (r : HttpResponse)
  | err (msg : String)
  | panic
deriving DecidableEq

/-- The observable effects of one request: whether the cache was
consulted, whether the environment variable was read, whether the
outbound fetch was issued, and what (if anything) was stored in the
cache under which key. -/
structure Effects where
  didCacheLookup : Bool
  didReadEnv : Bool
  didFetch : Bool
  stored : Option (String × HttpResponse)
deriving DecidableEq

/-- No effects: the value of every short-circuiting exit. -/
def noFx : Effects := ⟨false, false, false, none⟩

/-- main of src/lib.rs, lines 40-74, as a pure function of the request
(url = req.url(), path = req.path()) and the World: parse (panic and 400
exits), validate (403 exit), cache lookup, and on a miss env read, fetch,
decode, resize, response build, cache-control header, cache store (whose
failure propagates through the `?` on line 70). -/
def handle (w : World) (url path : String) : HandlerResult × Effects :=
  match parse_icon_path (trim_start_slashes path) with
  | .panicked => (.panic, noFx)
  | .unmatchedPath p =>
    (.resp { status := 400, body := .text ("Unmached path: " ++ p) }, noFx)
  | .ok icon =>
    match icon.validate with
    | .error e => (.resp { status := 403, body := .text e.message }, noFx)
    | .ok _ =>
      match w.cacheGet with
      | none => (.err "cache lookup failed", { noFx with didCacheLookup := true })
      | some (some r) => (.resp r, { noFx with didCacheLookup := true })
      | some none =>
        match w.envVar with
        | none =>
          (.err "SOURCE_IMAGE_URL not set",
            { noFx with didCacheLookup := true, didReadEnv := true })
        | some _ =>
          match w.fetchResult with
          | none => (.err "fetch failed", ⟨true, true, true, none⟩)
          | some res =>
            match fetch_source_image w.decode res with
            | .error e => (.err e, ⟨true, true, true, none⟩)
            | .ok src =>
              let img := generate_icon icon src
              let r0 := make_response img
              let r := { r0 with cacheControl := some "s-maxage=10" }
              if w.putOk then (.resp r, ⟨true, true, true, some (url, r)⟩)
              else (.err "cache put failed", ⟨true, true, true, none⟩)


/-! ### Helper lemmas -/

theorem stripPrefixL_append (l t : List Char) : stripPrefixL l (l ++ t) = some t := by
  induction l with
  | nil => rfl
  | cons c cs ih => simp [stripPrefixL, ih]

theorem takeWhile_append_of_all {p : Char → Bool} (l t : List Char) (h : l.all p) :
    (l ++ t).takeWhile p = l ++ t.takeWhile p := by
  induction l with
  | nil => simp
  | cons c cs ih =>
    simp only [List.all_cons, Bool.and_eq_true] at h
    simp [List.takeWhile, h.1, ih h.2]

theorem dropWhile_append_of_all {p : Char → Bool} (l t : List Char) (h : l.all p) :
    (l ++ t).dropWhile p = t.dropWhile p := by
  induction l with
  | nil => simp
  | cons c cs ih =>
    simp only [List.all_cons, Bool.and_eq_true] at h
    simp [List.dropWhile, h.1, ih h.2]

theorem takeWhile_cons_neg {p : Char → Bool} {c : Char} (l : List Char) (h : p c = false) :
    (c :: l).takeWhile p = [] := by
  simp [List.takeWhile, h]

theorem dropWhile_cons_neg {p : Char → Bool} {c : Char} (l : List Char) (h : p c = false) :
    (c :: l).dropWhile p = c :: l := by
  simp [List.dropWhile, h]

theorem matchSizeGroup_digits (ws hs tail : List Char)
    (hw : ws ≠ []) (hwd : ws.all Char.isDigit)
    (hh : hs ≠ []) (hhd : hs.all Char.isDigit)
    (htt : tail.takeWhile Char.isDigit = []) (htd : tail.dropWhile Char.isDigit = tail) :
    matchSizeGroup ('-' :: (ws ++ 'x' :: (hs ++ tail))) = (some (ws, hs), tail) := by
  have hx : Char.isDigit 'x' = false := rfl
  have h1 : (ws ++ 'x' :: (hs ++ tail)).takeWhile Char.isDigit = ws := by
    rw [takeWhile_append_of_all ws _ hwd, takeWhile_cons_neg _ hx, List.append_nil]
  have h2 : (ws ++ 'x' :: (hs ++ tail)).dropWhile Char.isDigit = 'x' :: (hs ++ tail) := by
    rw [dropWhile_append_of_all ws _ hwd, dropWhile_cons_neg _ hx]
  have h3 : (hs ++ tail).takeWhile Char.isDigit = hs := by
    rw [takeWhile_append_of_all hs tail hhd, htt, List.append_nil]
  have h4 : (hs ++ tail).dropWhile Char.isDigit = tail := by
    rw [dropWhile_append_of_all hs tail hhd, htd]
  simp only [matchSizeGroup, h1, h2, h3, h4]
  simp [hw, hh]

theorem data_mk (l : List Char) : (String.mk l).data = l := rfl

theorem matchIconPath_data (rest : List Char) :
    matchIconPath (String.mk ("apple-touch-icon".data ++ rest)) =
      (if (stripPrefixL ".png".data (matchPrecomposed (matchSizeGroup rest).2)).isSome
       then some (matchSizeGroup rest).1 else none) := by
  unfold matchIconPath
  rw [data_mk, stripPrefixL_append]

theorem parse_sized (ws hs : List Char)
    (hw : ws ≠ []) (hwd : ws.all Char.isDigit) (hwr : digitsToNat ws < 2 ^ 32)
    (hh : hs ≠ []) (hhd : hs.all Char.isDigit) (hhr : digitsToNat hs < 2 ^ 32) :
    parse_icon_path
        (String.mk ("apple-touch-icon".data ++ '-' :: (ws ++ 'x' :: (hs ++ ".png".data))))
      = .ok ⟨digitsToNat ws, digitsToNat hs⟩ := by
  have hm := matchSizeGroup_digits ws hs ".png".data hw hwd hh hhd (by decide) (by decide)
  have hu : parseU32 ws = some (digitsToNat ws) := by
    unfold parseU32; rw [if_pos ⟨hw, hwd, hwr⟩]
  have hv : parseU32 hs = some (digitsToNat hs) := by
    unfold parseU32; rw [if_pos ⟨hh, hhd, hhr⟩]
  unfold parse_icon_path
  rw [matchIconPath_data, hm]
  simp [hu, hv, show matchPrecomposed ['.', 'p', 'n', 'g'] = ['.', 'p', 'n', 'g'] from rfl,
    show (stripPrefixL ['.', 'p', 'n', 'g'] ['.', 'p', 'n', 'g']).isSome = true from rfl]

theorem parse_sized_pre (ws hs : List Char)
    (hw : ws ≠ []) (hwd : ws.all Char.isDigit) (hwr : digitsToNat ws < 2 ^ 32)
    (hh : hs ≠ []) (hhd : hs.all Char.isDigit) (hhr : digitsToNat hs < 2 ^ 32) :
    parse_icon_path
        (String.mk ("apple-touch-icon".data ++ '-' :: (ws ++ 'x' :: (hs ++ "-precomposed.png".data))))
      = .ok ⟨digitsToNat ws, digitsToNat hs⟩ := by
  have hm := matchSizeGroup_digits ws hs "-precomposed.png".data hw hwd hh hhd
    (by decide) (by decide)
  have hu : parseU32 ws = some (digitsToNat ws) := by
    unfold parseU32; rw [if_pos ⟨hw, hwd, hwr⟩]
  have hv : parseU32 hs = some (digitsToNat hs) := by
    unfold parseU32; rw [if_pos ⟨hh, hhd, hhr⟩]
  unfold parse_icon_path
  rw [matchIconPath_data, hm]
  simp [hu, hv,
    show matchPrecomposed ['-', 'p', 'r', 'e', 'c', 'o', 'm', 'p', 'o', 's', 'e', 'd',
      '.', 'p', 'n', 'g'] = ['.', 'p', 'n', 'g'] from rfl,
    show (stripPrefixL ['.', 'p', 'n', 'g'] ['.', 'p', 'n', 'g']).isSome = true from rfl]

theorem parse_trailing_aux (rest : List Char) :
    parse_icon_path (String.mk ("apple-touch-icon.png".data ++ rest)) = .ok ⟨60, 60⟩ := rfl

/-! ### Claim theorems: parsing and validation -/

/-- C3: the spec claims that a digit capture the integer parser rejects
yields a PathMismatch error value surfaced as a bad request.  The code
instead calls `.parse().unwrap()`: on the pattern-matching path
apple-touch-icon-4294967296x60.png the width capture 4294967296 = 2^32
overflows u32, and the request panics rather than returning an error.
The theorem evaluates the embedded parser at that failing input: the
regex matches and captures the digit strings, and the parse step
panics. -/
theorem parse_overflow_panics :
    matchIconPath "apple-touch-icon-4294967296x60.png"
      = some (some ("4294967296".data, "60".data)) ∧
    parse_icon_path "apple-touch-icon-4294967296x60.png" = .panicked := by
  constructor <;> decide

/-- C4: the regex is anchored only at the start of the path, so any string
that begins with an accepted form parses successfully no matter what
follows the .png: concretely apple-touch-icon.png.backup and
apple-touch-icon.pngx are accepted (as the 60x60 default), and in general
every extension of apple-touch-icon.png is accepted. -/
theorem parse_trailing_accepted :
    parse_icon_path "apple-touch-icon.png.backup" = .ok ⟨60, 60⟩ ∧
    parse_icon_path "apple-touch-icon.pngx" = .ok ⟨60, 60⟩ ∧
    ∀ rest : List Char,
      parse_icon_path (String.mk ("apple-touch-icon.png".data ++ rest)) = .ok ⟨60, 60⟩ :=
  ⟨by decide, by decide, fun rest => parse_trailing_aux rest⟩

/-- C5: validation checks width in [1,500], then height in [1,500], then
width = height, in that order; the first failing check alone determines
the error kind, success returns the spec unchanged (pure gate), and the
parsed 57x60 spec passes parsing and both range checks and is rejected
precisely as invalid size. -/
theorem validate_order_first_failure (i : Icon) :
    (i.width < 1 ∨ i.width > 500 → i.validate = .error .invalidWidth) ∧
    (1 ≤ i.width → i.width ≤ 500 → i.height < 1 ∨ i.height > 500 →
      i.validate = .error .invalidHeight) ∧
    (1 ≤ i.width → i.width ≤ 500 → 1 ≤ i.height → i.height ≤ 500 → i.width ≠ i.height →
      i.validate = .error .invalidSize) ∧
    (1 ≤ i.width → i.width ≤ 500 → 1 ≤ i.height → i.height ≤ 500 → i.width = i.height →
      i.validate = .ok ()) ∧
    parse_icon_path "apple-touch-icon-57x60.png" = .ok ⟨57, 60⟩ ∧
    Icon.validate ⟨57, 60⟩ = .error .invalidSize := by
  refine ⟨?_, ?_, ?_, ?_, by decide, rfl⟩
  · intro h
    unfold Icon.validate
    rw [if_pos h]
  · intro h1 h2 h3
    unfold Icon.validate
    rw [if_neg (by omega), if_pos h3]
  · intro h1 h2 h3 h4 h5
    unfold Icon.validate
    rw [if_neg (by omega), if_neg (by omega), if_pos h5]
  · intro h1 h2 h3 h4 h5
    unfold Icon.validate
    rw [if_neg (by omega), if_neg (by omega), if_neg (by simpa using h5)]

/-- Witness for C5: each arm of the validation order fires at a concrete
spec. -/
theorem validate_order_first_failure_check :
    Icon.validate ⟨0, 60⟩ = .error .invalidWidth ∧
    Icon.validate ⟨60, 501⟩ = .error .invalidHeight ∧
    Icon.validate ⟨57, 60⟩ = .error .invalidSize ∧
    Icon.validate ⟨120, 120⟩ = .ok () :=
  ⟨(validate_order_first_failure ⟨0, 60⟩).1 (Or.inl (by decide)),
   (validate_order_first_failure ⟨60, 501⟩).2.1 (by decide) (by decide) (Or.inr (by decide)),
   (validate_order_first_failure ⟨57, 60⟩).2.2.1 (by decide) (by decide) (by decide)
     (by decide) (by decide),
   (validate_order_first_failure ⟨120, 120⟩).2.2.2.1 (by decide) (by decide) (by decide)
     (by decide) rfl⟩

/-- C6: a path matching the grammar with a size group parses to exactly
the captured width and height digits (with or without -precomposed), and
when the size group is absent both dimensions default to exactly 60. -/
theorem parse_captures_exact (ws hs : List Char)
    (hw : ws ≠ []) (hwd : ws.all Char.isDigit) (hwr : digitsToNat ws < 2 ^ 32)
    (hh : hs ≠ []) (hhd : hs.all Char.isDigit) (hhr : digitsToNat hs < 2 ^ 32) :
    parse_icon_path
        (String.mk ("apple-touch-icon".data ++ '-' :: (ws ++ 'x' :: (hs ++ ".png".data))))
      = .ok ⟨digitsToNat ws, digitsToNat hs⟩ ∧
    parse_icon_path
        (String.mk ("apple-touch-icon".data ++ '-' :: (ws ++ 'x' :: (hs ++ "-precomposed.png".data))))
      = .ok ⟨digitsToNat ws, digitsToNat hs⟩ ∧
    parse_icon_path "apple-touch-icon.png" = .ok ⟨60, 60⟩ ∧
    parse_icon_path "apple-touch-icon-precomposed.png" = .ok ⟨60, 60⟩ :=
  ⟨parse_sized ws hs hw hwd hwr hh hhd hhr,
   parse_sized_pre ws hs hw hwd hwr hh hhd hhr,
   by decide, by decide⟩

/-- Witness for C6: the captured digits 120 and 180 come out exactly, on
the plain and the -precomposed sized forms. -/
theorem parse_captures_exact_check :
    parse_icon_path "apple-touch-icon-120x120.png" = .ok ⟨120, 120⟩ ∧
    parse_icon_path "apple-touch-icon-180x180-precomposed.png" = .ok ⟨180, 180⟩ :=
  ⟨(parse_captures_exact "120".data "120".data (by decide) (by decide) (by decide)
      (by decide) (by decide) (by decide)).1,
   (parse_captures_exact "180".data "180".data (by decide) (by decide) (by decide)
      (by decide) (by decide) (by decide)).2.1⟩

/-! ### Claim theorems: resizing -/

theorem validate_ok_bounds (i : Icon) (h : i.validate = .ok ()) :
    1 ≤ i.width ∧ i.width ≤ 500 ∧ i.height = i.width := by
  unfold Icon.validate at h
  by_cases h1 : i.width < 1 ∨ i.width > 500
  · rw [if_pos h1] at h; cases h
  · rw [if_neg h1] at h
    by_cases h2 : i.height < 1 ∨ i.height > 500
    · rw [if_pos h2] at h; cases h
    · rw [if_neg h2] at h
      by_cases h3 : i.width ≠ i.height
      · rw [if_pos h3] at h; cases h
      · push_neg at h1 h2 h3
        omega

theorem roundNatDiv_self_mul (s n : Nat) (h : 0 < s) : roundNatDiv (s * n) s = n := by
  unfold roundNatDiv
  rw [show 2 * (s * n) + s = s * (2 * n + 1) by ring, show 2 * s = s * 2 by ring,
    Nat.mul_div_mul_left _ _ h]
  omega

/-- C1 counterexample: generate_icon does not always produce exactly
width x height: DynamicImage::resize preserves the source's aspect
ratio, so a 256x128 source resized for spec 120x120 yields a 120x60
image, not 120x120. -/
theorem generate_icon_not_exact_for_nonsquare :
    generate_icon ⟨120, 120⟩ ⟨256, 128⟩ = ⟨120, 60⟩ ∧
    generate_icon ⟨120, 120⟩ ⟨256, 128⟩ ≠ ⟨120, 120⟩ := by
  constructor <;> decide

/-- C1 (amended): for every validated (hence square) spec and every square
decoded source, generate_icon produces an image of exactly width x height
pixels, including upscaling when the source is smaller than requested;
for a non-square source the image crate's resize preserves the source's
aspect ratio within the requested box instead (256x128 at spec 120x120
gives 120x60). -/
theorem generate_icon_square_exact (icon : Icon) (src : SourceImage)
    (hv : icon.validate = .ok ()) (hsq : src.width = src.height) (hpos : 1 ≤ src.width) :
    generate_icon icon src = ⟨icon.width, icon.height⟩ := by
  obtain ⟨h1, h2, h3⟩ := validate_ok_bounds icon hv
  unfold generate_icon resize_dimensions
  rw [← hsq, h3]
  rw [if_pos (le_refl (icon.width * src.width))]
  simp only [roundNatDiv_self_mul src.width icon.width (by omega)]
  have hmax : max icon.width 1 = icon.width := by omega
  simp only [hmax]
  rw [if_neg (by simp only [u32Max]; omega), if_neg (by simp only [u32Max]; omega)]

/-- Witness for C1 (amended): a 16x16 source is upscaled to exactly
120x120 and a 256x256 source downscaled to exactly 120x120. -/
theorem generate_icon_square_exact_check :
    generate_icon ⟨120, 120⟩ ⟨16, 16⟩ = ⟨120, 120⟩ ∧
    generate_icon ⟨120, 120⟩ ⟨256, 256⟩ = ⟨120, 120⟩ :=
  ⟨generate_icon_square_exact ⟨120, 120⟩ ⟨16, 16⟩ rfl rfl (by decide),
   generate_icon_square_exact ⟨120, 120⟩ ⟨256, 256⟩ rfl rfl (by decide)⟩

/-! ### Claim theorems: fetch and handler -/

/-- C8: content-type mapping is by exact string match (image/jpeg to
JPEG, image/png to PNG, image/gif to GIF); any other value fails with
the unknown-format error carrying the value, and a missing header fails
with the missing-header message; both failures occur for every decode
oracle and every body, i.e. before any decode or render is attempted. -/
theorem content_type_mapping (d : ImageFormat → List Nat → Except String SourceImage)
    (body : List Nat) (t : String) :
    detect_image_format "image/jpeg" = .ok .jpeg ∧
    detect_image_format "image/png" = .ok .png ∧
    detect_image_format "image/gif" = .ok .gif ∧
    (t ≠ "image/jpeg" → t ≠ "image/png" → t ≠ "image/gif" →
      fetch_source_image d ⟨body, some t⟩
        = .error ("Unknown source image format: " ++ t)) ∧
    fetch_source_image d ⟨body, none⟩
      = .error "Could not get content-type response header" := by
  refine ⟨rfl, rfl, rfl, ?_, rfl⟩
  intro h1 h2 h3
  unfold fetch_source_image
  simp only [detect_image_format, if_neg h1, if_neg h2, if_neg h3]

/-- Witness for C8: a text/html source response fails with the
unknown-format error even though the decode oracle would succeed. -/
theorem content_type_mapping_check :
    fetch_source_image (fun _ _ => .ok ⟨1, 1⟩) ⟨[], some "text/html"⟩
      = .error "Unknown source image format: text/html" :=
  (content_type_mapping (fun _ _ => .ok ⟨1, 1⟩) [] "text/html").2.2.2.1
    (by decide) (by decide) (by decide)

/-- C7: a path that fails to parse yields a 400 response whose body
carries the offending path, and a path that parses but fails validation
yields a 403 response whose body is the validation error text; both
short-circuit with no cache lookup, no environment read, no outbound
fetch and no store, whatever the external world would have done. -/
theorem error_responses_short_circuit (w : World) (url path : String) :
    (∀ p, parse_icon_path (trim_start_slashes path) = .unmatchedPath p →
      handle w url path
        = (.resp { status := 400, body := .text ("Unmached path: " ++ p) }, noFx)) ∧
    (∀ icon e, parse_icon_path (trim_start_slashes path) = .ok icon →
      icon.validate = .error e →
      handle w url path = (.resp { status := 403, body := .text e.message }, noFx)) := by
  constructor
  · intro p hp
    unfold handle
    simp only [hp]
  · intro icon e hp he
    unfold handle
    simp only [hp, he]

/-- Witness for C7: favicon.ico gets the 400 with the path in the body,
and apple-touch-icon-600x600.png gets the 403 with "invalid width"; both
with the empty effect record. -/
theorem error_responses_short_circuit_check :
    handle ⟨some none, some "u", none, fun _ _ => .error "", true⟩ "k" "/favicon.ico"
      = (.resp { status := 400, body := .text "Unmached path: favicon.ico" }, noFx) ∧
    handle ⟨some none, some "u", none, fun _ _ => .error "", true⟩ "k"
        "/apple-touch-icon-600x600.png"
      = (.resp { status := 403, body := .text "invalid width" }, noFx) :=
  ⟨(error_responses_short_circuit ⟨some none, some "u", none, fun _ _ => .error "", true⟩
      "k" "/favicon.ico").1 "favicon.ico" (by decide),
   (error_responses_short_circuit ⟨some none, some "u", none, fun _ _ => .error "", true⟩
      "k" "/apple-touch-icon-600x600.png").2 ⟨600, 600⟩ .invalidWidth (by decide) rfl⟩

/-- C9: on a non-expired cache hit the stored response is returned
verbatim with no env read, no fetch and no store; on a miss with a
successful fetch, decode and store, the returned response carries exactly
content-type: image/png and cache-control: s-maxage=10, and that very
response is stored under the full-URL key. -/
theorem cache_roundtrip (w : World) (url path : String) (icon : Icon)
    (hp : parse_icon_path (trim_start_slashes path) = .ok icon)
    (hv : icon.validate = .ok ()) :
    (∀ r, w.cacheGet = some (some r) →
      handle w url path = (.resp r, ⟨true, false, false, none⟩)) ∧
    (∀ u res src, w.cacheGet = some none → w.envVar = some u →
      w.fetchResult = some res → fetch_source_image w.decode res = .ok src →
      w.putOk = true →
      handle w url path
        = (.resp { status := 200, body := .png (generate_icon icon src),
                   contentType := some "image/png", cacheControl := some "s-maxage=10" },
           ⟨true, true, true,
            some (url, { status := 200, body := .png (generate_icon icon src),
                         contentType := some "image/png",
                         cacheControl := some "s-maxage=10" })⟩)) := by
  constructor
  · intro r hr
    unfold handle
    simp only [hp, hv, hr]
    rfl
  · intro u res src hc he hf hd hput
    unfold handle
    simp only [hp, hv, hc, he, hf, hd, hput]
    rfl

/-- Witness for C9: a concrete hit returns the cached response verbatim
with no fetch, and a concrete miss returns the freshly rendered 120x120
PNG with both headers and stores it under the key. -/
theorem cache_roundtrip_check :
    handle ⟨some (some { status := 200, body := .text "cached" }), none, none,
        fun _ _ => .error "", true⟩ "k" "/apple-touch-icon.png"
      = (.resp { status := 200, body := .text "cached" }, ⟨true, false, false, none⟩) ∧
    handle ⟨some none, some "http://s", some ⟨[7], some "image/png"⟩,
        fun _ _ => .ok ⟨256, 256⟩, true⟩ "k2" "/apple-touch-icon-120x120.png"
      = (.resp { status := 200, body := .png ⟨120, 120⟩, contentType := some "image/png",
                 cacheControl := some "s-maxage=10" },
         ⟨true, true, true, some ("k2", { status := 200, body := .png ⟨120, 120⟩,
                                          contentType := some "image/png",
                                          cacheControl := some "s-maxage=10" })⟩) :=
  ⟨(cache_roundtrip ⟨some (some { status := 200, body := .text "cached" }), none, none,
        fun _ _ => .error "", true⟩ "k" "/apple-touch-icon.png" ⟨60, 60⟩
        (by decide) rfl).1 { status := 200, body := .text "cached" } rfl,
   (cache_roundtrip ⟨some none, some "http://s", some ⟨[7], some "image/png"⟩,
        fun _ _ => .ok ⟨256, 256⟩, true⟩ "k2" "/apple-touch-icon-120x120.png" ⟨120, 120⟩
        (by decide) rfl).2 "http://s" ⟨[7], some "image/png"⟩ ⟨256, 256⟩ rfl rfl rfl rfl rfl⟩

/-- C10: on a cache hit the environment is never consulted: whatever
value (or absence) the SOURCE_IMAGE_URL variable has, the handler returns
the stored response with didReadEnv = false, so a missing or malformed
configuration can only fail a miss-path request. -/
theorem env_unread_on_hit (w : World) (e : Option String) (url path : String)
    (icon : Icon) (r : HttpResponse)
    (hp : parse_icon_path (trim_start_slashes path) = .ok icon)
    (hv : icon.validate = .ok ())
    (hr : w.cacheGet = some (some r)) :
    handle { w with envVar := e } url path = (.resp r, ⟨true, false, false, none⟩) := by
  unfold handle
  simp only [hp, hv]
  simp only [show ({ w with envVar := e } : World).cacheGet = w.cacheGet from rfl, hr]
  rfl

/-- Witness for C10: a hit request succeeds with the cached response even
though SOURCE_IMAGE_URL is absent from the environment. -/
theorem env_unread_on_hit_check :
    handle ⟨some (some { status := 200, body := .text "hit" }), none, none,
        fun _ _ => .error "", true⟩ "k" "/apple-touch-icon.png"
      = (.resp { status := 200, body := .text "hit" }, ⟨true, false, false, none⟩) :=
  env_unread_on_hit ⟨some (some { status := 200, body := .text "hit" }), some "ignored",
      none, fun _ _ => .error "", true⟩ none "k" "/apple-touch-icon.png" ⟨60, 60⟩
    { status := 200, body := .text "hit" } (by decide) rfl rfl

/-- C2 counterexample: the claim says a failed cache store still returns
the already-built PNG response; in the code the store failure propagates
through the question-mark operator on line 70, so at this concrete world
(fetch and render succeed, cache.put fails) the handler returns an error,
not a response, and nothing is stored. -/
theorem store_failure_returns_response_cex :
    handle ⟨some none, some "http://s", some ⟨[7], some "image/png"⟩,
        fun _ _ => .ok ⟨256, 256⟩, false⟩ "k" "/apple-touch-icon-120x120.png"
      = (.err "cache put failed", ⟨true, true, true, none⟩) := by
  decide

/-- C2 (amended): for every cache-miss request in which fetch and render
succeed but the cache store fails, the store error propagates and fails
the whole request (the runtime surfaces it as a generic error response,
not the built PNG), and the cache is left without an entry. -/
theorem store_failure_propagates (w : World) (url path : String) (icon : Icon)
    (res : FetchResponse) (src : SourceImage) (u : String)
    (hp : parse_icon_path (trim_start_slashes path) = .ok icon)
    (hv : icon.validate = .ok ())
    (hc : w.cacheGet = some none) (he : w.envVar = some u)
    (hf : w.fetchResult = some res) (hd : fetch_source_image w.decode res = .ok src)
    (hput : w.putOk = false) :
    handle w url path = (.err "cache put failed", ⟨true, true, true, none⟩) := by
  unfold handle
  simp only [hp, hv, hc, he, hf, hd, hput]
  rfl

/-- Witness for C2 (amended): a concrete store-failing miss request ends
in the propagated error with an empty store record. -/
theorem store_failure_propagates_check :
    handle ⟨some none, some "http://src", some ⟨[9], some "image/jpeg"⟩,
        fun _ _ => .ok ⟨64, 64⟩, false⟩ "key2" "/apple-touch-icon-57x57.png"
      = (.err "cache put failed", ⟨true, true, true, none⟩) :=
  store_failure_propagates ⟨some none, some "http://src", some ⟨[9], some "image/jpeg"⟩,
      fun _ _ => .ok ⟨64, 64⟩, false⟩ "key2" "/apple-touch-icon-57x57.png" ⟨57, 57⟩
    ⟨[9], some "image/jpeg"⟩ ⟨64, 64⟩ "http://src" (by decide) rfl rfl rfl rfl rfl rfl
